import Mathlib

/-!
Shallow embedding of the group-chat backend (`src/groupchat-api/main.py`).

Python dicts (`users_db`, `orgs_db`, `groups_db`) are modelled as
association lists `List (String × α)` preserving insertion order, with
python-dict assignment semantics (replace in place when the key exists,
append otherwise).  Entity objects stored in `groups_db` are the plain
dicts produced by `.dict()`, so a stored message may carry a `color` key
that the pydantic `Message` model does not declare; the embedding gives
`Message` an `Option String` field for that key (`none` = key absent).
Handlers return the mutated store together with an `Except` value; an
`HTTPException` raised by the python handler becomes the `.error` case,
carrying the status code and detail string.  `uuid4()` and
`datetime.now()` are external inputs and appear as explicit parameters.
-/

namespace GroupChat

/-- Lookup in a python-dict modelled as an association list
(first — and, for a dict, only — binding of the key). -/
def dictLookup {α : Type} : List (String × α) → String → Option α
  | [], _ => none
  | p :: ps, k => if p.1 = k then some p.2 else dictLookup ps k

/-- Python dict assignment `d[k] = v`: replace the binding in place when
the key is present, append a new binding otherwise. -/
def dictSet {α : Type} : List (String × α) → String → α → List (String × α)
  | [], k, v => [(k, v)]
  | p :: ps, k, v => if p.1 = k then (k, v) :: ps else p :: dictSet ps k v

/-- Python `k in d` membership test on a dict. -/
def dictHas {α : Type} (d : List (String × α)) (k : String) : Bool :=
  (dictLookup d k).isSome

/-- Entity `User` of `main.py` (pydantic model, all fields client-supplied). -/
structure User where
  id : String
  username : String
  email : String
  org_ids : List String
deriving DecidableEq, Repr

/-- Entity `Organization` of `main.py`. -/
structure Organization where
  id : String
  name : String
  description : String
deriving DecidableEq, Repr

/-- Entity `Message` of `main.py`.  The `color` field models the extra
dict key written by `get_messages`; it is absent (`none`) on every
message built through the pydantic model. -/
structure Message where
  id : String
  content : String
  user_id : String
  timestamp : String
  likes : List String
  dislikes : List String
  color : Option String
deriving DecidableEq, Repr

/-- Entity `Group` of `main.py`. -/
structure Group where
  id : String
  name : String
  description : String
  org_id : String
  members : List String
  messages : List Message
deriving DecidableEq, Repr

/-- An `HTTPException` value: status code and detail string. -/
structure HTTPError where
  status_code : Nat
  detail : String
deriving DecidableEq, Repr

/-- The three in-memory collections (`users_db`, `orgs_db`, `groups_db`). -/
structure DB where
  users : List (String × User)
  orgs : List (String × Organization)
  groups : List (String × Group)
deriving DecidableEq, Repr

/-- The store at process start with no pre-existing data files. -/
def DB.empty : DB := ⟨[], [], []⟩

/-- Handler `create_user`: conflict on an existing id, otherwise insert
and return the stored entity. -/
def create_user (u : User) (s : DB) : DB × Except HTTPError User :=
  if dictHas s.users u.id then (s, .error ⟨400, "User already exists"⟩)
  else ({ s with users := dictSet s.users u.id u }, .ok u)

/-- Handler `get_user`. -/
def get_user (user_id : String) (s : DB) : DB × Except HTTPError User :=
  match dictLookup s.users user_id with
  | none => (s, .error ⟨404, "User not found"⟩)
  | some u => (s, .ok u)

/-- Handler `create_organization`. -/
def create_organization (o : Organization) (s : DB) : DB × Except HTTPError Organization :=
  if dictHas s.orgs o.id then (s, .error ⟨400, "Organization already exists"⟩)
  else ({ s with orgs := dictSet s.orgs o.id o }, .ok o)

/-- Handler `create_group`: only the id is checked; the supplied
`members` and `messages` lists are stored verbatim. -/
def create_group (g : Group) (s : DB) : DB × Except HTTPError Group :=
  if dictHas s.groups g.id then (s, .error ⟨400, "Group already exists"⟩)
  else ({ s with groups := dictSet s.groups g.id g }, .ok g)

/-- Handler `add_member_to_group`: 404 when group or user is absent;
append the user id to `members` only when not already present. -/
def add_member_to_group (group_id user_id : String) (s : DB) :
    DB × Except HTTPError String :=
  match dictLookup s.groups group_id with
  | none => (s, .error ⟨404, "Group not found"⟩)
  | some g =>
      if dictHas s.users user_id = false then (s, .error ⟨404, "User not found"⟩)
      else if user_id ∈ g.members then (s, .ok "Member added successfully")
      else
        let g' := { g with members := g.members ++ [user_id] }
        ({ s with groups := dictSet s.groups group_id g' }, .ok "Member added successfully")

/-- Handler `create_message`; `new_id` stands for `str(uuid4())` and
`timestamp` for `datetime.now().isoformat()`. -/
def create_message (group_id content user_id new_id timestamp : String) (s : DB) :
    DB × Except HTTPError Message :=
  match dictLookup s.groups group_id with
  | none => (s, .error ⟨404, "Group not found"⟩)
  | some g =>
      if dictHas s.users user_id = false then (s, .error ⟨404, "User not found"⟩)
      else
        let m : Message :=
          { id := new_id, content := content, user_id := user_id,
            timestamp := timestamp, likes := [], dislikes := [], color := none }
        let g' := { g with messages := g.messages ++ [m] }
        ({ s with groups := dictSet s.groups group_id g' }, .ok m)

/-- The reaction update applied to the matched message: `list.remove`
(first occurrence, guarded by a membership test, hence `List.erase`) on
both lists, then an append decided by the `reaction` string. -/
def applyReaction (user_id reaction : String) (m : Message) : Message :=
  let likes := m.likes.erase user_id
  let dislikes := m.dislikes.erase user_id
  if reaction = "like" then
    { m with likes := likes ++ [user_id], dislikes := dislikes }
  else if reaction = "dislike" then
    { m with likes := likes, dislikes := dislikes ++ [user_id] }
  else
    { m with likes := likes, dislikes := dislikes }

/-- The linear scan of `react_to_message`: first message whose id
matches.  A matched message dict is a non-empty dict, so the python
`if not message` test is exactly the `none` test. -/
def findMessage (msgs : List Message) (message_id : String) : Option Message :=
  msgs.find? (fun m => m.id == message_id)

/-- In-place mutation of the first matching message of the list. -/
def updateMessage (message_id : String) (f : Message → Message) :
    List Message → List Message
  | [] => []
  | m :: ms =>
      if m.id == message_id then f m :: ms else m :: updateMessage message_id f ms

/-- Handler `react_to_message`. -/
def react_to_message (group_id message_id user_id reaction : String) (s : DB) :
    DB × Except HTTPError Message :=
  match dictLookup s.groups group_id with
  | none => (s, .error ⟨404, "Group not found"⟩)
  | some g =>
      match findMessage g.messages message_id with
      | none => (s, .error ⟨404, "Message not found"⟩)
      | some m =>
          let m' := applyReaction user_id reaction m
          let g' := { g with
            messages := updateMessage message_id (applyReaction user_id reaction) g.messages }
          ({ s with groups := dictSet s.groups group_id g' }, .ok m')

/-- Color computed by `get_messages`; the python float division is
embedded as exact division in `ℚ`. -/
def messageColor (m : Message) : String :=
  let total := m.likes.length + m.dislikes.length
  if total > 0 then
    let like_ratio : ℚ := (m.likes.length : ℚ) / (total : ℚ)
    if like_ratio = 1 then "green"
    else if like_ratio = 0 then "red"
    else "yellow"
  else "gray"

/-- The per-message effect of the loop in `get_messages`: it assigns
`message["color"]` on the stored dict itself. -/
def annotate (m : Message) : Message := { m with color := some (messageColor m) }

/-- Handler `get_messages`.  The loop iterates over the very list stored
in `groups_db`, so the annotated messages replace the stored ones. -/
def get_messages (group_id : String) (s : DB) :
    DB × Except HTTPError (List Message) :=
  match dictLookup s.groups group_id with
  | none => (s, .error ⟨404, "Group not found"⟩)
  | some g =>
      let msgs := g.messages.map annotate
      let g' := { g with messages := msgs }
      ({ s with groups := dictSet s.groups group_id g' }, .ok msgs)

/-- File store for `load_data` / `save_data`: file name to stored JSON
value.  Contents are modelled at the JSON-value level (the standard
library's dump and parse are mutually inverse on these dict values); the
swallowed I/O failure branches are outside the "file present and
readable" regime the round-trip claim is about. -/
def save_data {α : Type} (filename : String) (data : α)
    (fs : List (String × α)) : List (String × α) :=
  dictSet fs filename data

/-- `load_data`: parse the backing file when it exists, otherwise create
it holding `default_data` and return `default_data`. -/
def load_data {α : Type} (filename : String) (default_data : α)
    (fs : List (String × α)) : α × List (String × α) :=
  match dictLookup fs filename with
  | some v => (v, fs)
  | none => (default_data, save_data filename default_data fs)

/-- One client request against the API (external inputs explicit). -/
inductive Op where
  | createUser (u : User)
  | createOrganization (o : Organization)
  | createGroup (g : Group)
  | addMember (group_id user_id : String)
  | createMessage (group_id content user_id new_id timestamp : String)
  | reactToMessage (group_id message_id user_id reaction : String)
deriving DecidableEq, Repr

/-- Effect of one request on the in-memory store (a failed request
leaves the store as the handler left it, which for these handlers is
unchanged). -/
def step (s : DB) : Op → DB
  | .createUser u => (create_user u s).1
  | .createOrganization o => (create_organization o s).1
  | .createGroup g => (create_group g s).1
  | .addMember gid uid => (add_member_to_group gid uid s).1
  | .createMessage gid c uid nid ts => (create_message gid c uid nid ts s).1
  | .reactToMessage gid mid uid r => (react_to_message gid mid uid r s).1

/-- Store reached from an empty store by a sequence of requests. -/
def run (ops : List Op) : DB := ops.foldl step DB.empty

/-! ### Basic dictionary lemmas -/

theorem dictLookup_dictSet_self {α : Type} (d : List (String × α)) (k : String) (v : α) :
    dictLookup (dictSet d k v) k = some v := by
  induction d with
  | nil => simp [dictLookup, dictSet]
  | cons p ps ih =>
      by_cases h : p.1 = k
      · simp [dictLookup, dictSet, h]
      · simp [dictLookup, dictSet, h, ih]

theorem dictLookup_mem {α : Type} {d : List (String × α)} {k : String} {v : α}
    (h : dictLookup d k = some v) : (k, v) ∈ d := by
  induction d with
  | nil => simp [dictLookup] at h
  | cons p ps ih =>
      obtain ⟨pk, pv⟩ := p
      by_cases hp : pk = k
      · simp [dictLookup, hp] at h
        simp [hp, h]
      · simp [dictLookup, hp] at h
        exact List.mem_cons_of_mem _ (ih h)

theorem mem_dictSet {α : Type} {d : List (String × α)} {k : String} {v : α} {kv : String × α}
    (h : kv ∈ dictSet d k v) : kv ∈ d ∨ kv = (k, v) := by
  induction d with
  | nil => simp [dictSet] at h; simp [h]
  | cons p ps ih =>
      by_cases hp : p.1 = k
      · simp [dictSet, hp] at h
        rcases h with h | h
        · right; exact h
        · left; simp [h]
      · simp [dictSet, hp] at h
        rcases h with h | h
        · left; simp [h]
        · rcases ih h with h' | h'
          · left; simp [h']
          · right; exact h'

theorem dictHas_eq_true_iff {α : Type} (d : List (String × α)) (k : String) :
    dictHas d k = true ↔ ∃ v, dictLookup d k = some v := by
  simp [dictHas, Option.isSome_iff_exists]

theorem dictHas_eq_false_iff {α : Type} (d : List (String × α)) (k : String) :
    dictHas d k = false ↔ dictLookup d k = none := by
  unfold dictHas
  cases dictLookup d k <;> simp

/-! ### Color characterization -/

/-- The `ℚ`-ratio conditionals of `messageColor` restated as counting
conditions on the two reaction lists. -/
theorem messageColor_eq (m : Message) :
    messageColor m =
      if m.likes.length + m.dislikes.length = 0 then "gray"
      else if m.dislikes.length = 0 then "green"
      else if m.likes.length = 0 then "red"
      else "yellow" := by
  by_cases h0 : m.likes.length + m.dislikes.length = 0
  · simp [messageColor, h0]
  · have hpos : 0 < m.likes.length + m.dislikes.length := Nat.pos_of_ne_zero h0
    have hcast : ((m.likes.length : ℚ) + (m.dislikes.length : ℚ)) ≠ 0 := by
      exact_mod_cast h0
    have h1 : ((m.likes.length : ℚ) / (((m.likes.length + m.dislikes.length : ℕ)) : ℚ) = 1)
        ↔ m.dislikes.length = 0 := by
      push_cast
      rw [div_eq_one_iff_eq hcast, self_eq_add_right]
      exact_mod_cast Iff.rfl
    have h2 : ((m.likes.length : ℚ) / (((m.likes.length + m.dislikes.length : ℕ)) : ℚ) = 0)
        ↔ m.likes.length = 0 := by
      push_cast
      rw [div_eq_zero_iff]
      simp [hcast]
    simp only [messageColor, if_pos hpos, if_neg h0, h1, h2]

/-! ### Reaction lemmas -/

theorem applyReaction_id (u r : String) (m : Message) :
    (applyReaction u r m).id = m.id := by
  unfold applyReaction
  split_ifs <;> rfl

theorem applyReaction_content (u r : String) (m : Message) :
    (applyReaction u r m).content = m.content := by
  unfold applyReaction
  split_ifs <;> rfl

theorem applyReaction_count_self_likes (u r : String) (m : Message)
    (h : m.likes.count u ≤ 1) :
    (applyReaction u r m).likes.count u = if r = "like" then 1 else 0 := by
  have he : (m.likes.erase u).count u = 0 := by
    have := List.count_erase_self u m.likes
    omega
  unfold applyReaction
  split_ifs with h1 h2 <;> simp [he, List.count_append]

theorem applyReaction_count_self_dislikes (u r : String) (m : Message)
    (h : m.dislikes.count u ≤ 1) :
    (applyReaction u r m).dislikes.count u = if r = "dislike" then 1 else 0 := by
  have he : (m.dislikes.erase u).count u = 0 := by
    have := List.count_erase_self u m.dislikes
    omega
  unfold applyReaction
  split_ifs with h1 h2 <;> simp_all [List.count_append]

theorem applyReaction_count_other (u r v : String) (hv : v ≠ u) (m : Message) :
    (applyReaction u r m).likes.count v = m.likes.count v ∧
    (applyReaction u r m).dislikes.count v = m.dislikes.count v := by
  have hl := List.count_erase_of_ne hv m.likes
  have hd := List.count_erase_of_ne hv m.dislikes
  unfold applyReaction
  split_ifs <;> simp [hl, hd, List.count_append, List.count_cons, hv]

theorem findMessage_updateMessage (mid : String) (f : Message → Message)
    (hf : ∀ m, (f m).id = m.id) :
    ∀ (msgs : List Message) (m : Message), findMessage msgs mid = some m →
      findMessage (updateMessage mid f msgs) mid = some (f m)
  | [], m, h => by simp [findMessage] at h
  | m0 :: ms, m, h => by
      unfold findMessage at h
      by_cases hc : (m0.id == mid) = true
      · have e1 : List.find? (fun x => x.id == mid) (m0 :: ms) = some m0 :=
          List.find?_cons_of_pos ms hc
        rw [e1] at h
        injection h with h
        subst h
        have hfc : ((f m0).id == mid) = true := by
          rw [hf m0]; exact hc
        unfold updateMessage
        rw [if_pos hc]
        unfold findMessage
        apply List.find?_cons_of_pos
        exact hfc
      · have e1 : List.find? (fun x => x.id == mid) (m0 :: ms) =
            List.find? (fun x => x.id == mid) ms :=
          List.find?_cons_of_neg ms hc
        rw [e1] at h
        unfold updateMessage
        rw [if_neg hc]
        unfold findMessage
        have e2 : List.find? (fun x => x.id == mid) (m0 :: updateMessage mid f ms) =
            List.find? (fun x => x.id == mid) (updateMessage mid f ms) :=
          List.find?_cons_of_neg (updateMessage mid f ms) hc
        rw [e2]
        exact findMessage_updateMessage mid f hf ms m h

/-- One successful `react_to_message` call, reduced: the matched message
is replaced in place and returned. -/
theorem react_to_message_found {s : DB} {gid mid : String} (uid r : String)
    {g : Group} {m : Message}
    (hg : dictLookup s.groups gid = some g)
    (hm : findMessage g.messages mid = some m) :
    react_to_message gid mid uid r s =
      ({ s with
          groups :=
            dictSet s.groups gid
              ({ g with messages := updateMessage mid (applyReaction uid r) g.messages }) },
        .ok (applyReaction uid r m)) := by
  simp [react_to_message, hg, hm]

/-- Iterated reactions by one user on one message of one group. -/
def runReacts (gid mid uid : String) (rs : List String) (s : DB) : DB :=
  rs.foldl (fun t r => (react_to_message gid mid uid r t).1) s

/-- Invariant carried through a reaction sequence: the group and the
matched message exist and the reacting user occurs at most once in each
reaction list of that message. -/
def reactInv (gid mid uid : String) (s : DB) : Prop :=
  ∃ g m, dictLookup s.groups gid = some g ∧ findMessage g.messages mid = some m ∧
    m.likes.count uid ≤ 1 ∧ m.dislikes.count uid ≤ 1

theorem reactInv_step (gid mid uid r : String) (s : DB)
    (h : reactInv gid mid uid s) :
    reactInv gid mid uid (react_to_message gid mid uid r s).1 := by
  obtain ⟨g, m, hg, hm, h1, h2⟩ := h
  rw [react_to_message_found uid r hg hm]
  refine ⟨{ g with messages := updateMessage mid (applyReaction uid r) g.messages },
    applyReaction uid r m, dictLookup_dictSet_self s.groups gid _,
    findMessage_updateMessage mid _ (applyReaction_id uid r) g.messages m hm, ?_, ?_⟩
  · rw [applyReaction_count_self_likes uid r m h1]
    split_ifs <;> omega
  · rw [applyReaction_count_self_dislikes uid r m h2]
    split_ifs <;> omega

theorem runReacts_inv (gid mid uid : String) :
    ∀ (rs : List String) (s : DB), reactInv gid mid uid s →
      reactInv gid mid uid (runReacts gid mid uid rs s)
  | [], _, h => h
  | r :: rs, s, h => by
      unfold runReacts
      rw [List.foldl_cons]
      exact runReacts_inv gid mid uid rs _ (reactInv_step gid mid uid r s h)

/-! ### Members-list invariant machinery -/

/-- All stored groups have duplicate-free members lists. -/
def membersNodup (s : DB) : Prop :=
  ∀ kv ∈ s.groups, (kv.2).members.Nodup

/-- The only way a request can supply a members list directly is a
`createGroup` payload; this predicate constrains exactly that. -/
def opPayloadNodup : Op → Prop
  | Op.createGroup g => g.members.Nodup
  | _ => True

instance (op : Op) : Decidable (opPayloadNodup op) :=
  match op with
  | Op.createUser _ => inferInstanceAs (Decidable True)
  | Op.createOrganization _ => inferInstanceAs (Decidable True)
  | Op.createGroup g => inferInstanceAs (Decidable g.members.Nodup)
  | Op.addMember _ _ => inferInstanceAs (Decidable True)
  | Op.createMessage _ _ _ _ _ => inferInstanceAs (Decidable True)
  | Op.reactToMessage _ _ _ _ => inferInstanceAs (Decidable True)

theorem step_membersNodup (s : DB) (op : Op) (hs : membersNodup s)
    (hop : opPayloadNodup op) : membersNodup (step s op) := by
  cases op with
  | createUser u =>
      by_cases h : dictHas s.users u.id <;>
        simp only [step, create_user, h, if_pos, if_neg, Bool.false_eq_true] <;>
        exact hs
  | createOrganization o =>
      by_cases h : dictHas s.orgs o.id <;>
        simp only [step, create_organization, h, if_pos, if_neg, Bool.false_eq_true] <;>
        exact hs
  | createGroup g =>
      by_cases h : dictHas s.groups g.id
      · simpa only [step, create_group, h, if_pos] using hs
      · simp only [step, create_group, h, Bool.false_eq_true, if_neg, not_false_iff]
        intro kv hkv
        rcases mem_dictSet hkv with h' | h'
        · exact hs kv h'
        · subst h'
          exact hop
  | addMember gid uid =>
      cases hg : dictLookup s.groups gid with
      | none => simpa only [step, add_member_to_group, hg] using hs
      | some g =>
          by_cases hu : dictHas s.users uid = false
          · simpa only [step, add_member_to_group, hg, hu, if_pos] using hs
          · by_cases hmem : uid ∈ g.members
            · simpa only [step, add_member_to_group, hg, hu, if_neg, if_pos, hmem] using hs
            · simp only [step, add_member_to_group, hg, hu, if_neg, hmem, not_false_iff]
              intro kv hkv
              rcases mem_dictSet hkv with h' | h'
              · exact hs kv h'
              · subst h'
                have hgnd : g.members.Nodup := hs (gid, g) (dictLookup_mem hg)
                simp [List.nodup_append, hgnd, hmem]
  | createMessage gid c uid nid ts =>
      cases hg : dictLookup s.groups gid with
      | none => simpa only [step, create_message, hg] using hs
      | some g =>
          by_cases hu : dictHas s.users uid = false
          · simpa only [step, create_message, hg, hu, if_pos] using hs
          · simp only [step, create_message, hg, hu, if_neg, not_false_iff]
            intro kv hkv
            rcases mem_dictSet hkv with h' | h'
            · exact hs kv h'
            · subst h'
              exact hs (gid, g) (dictLookup_mem hg)
  | reactToMessage gid mid uid r =>
      cases hg : dictLookup s.groups gid with
      | none => simpa only [step, react_to_message, hg] using hs
      | some g =>
          cases hm : findMessage g.messages mid with
          | none => simpa only [step, react_to_message, hg, hm] using hs
          | some m =>
              simp only [step, react_to_message, hg, hm]
              intro kv hkv
              rcases mem_dictSet hkv with h' | h'
              · exact hs kv h'
              · subst h'
                exact hs (gid, g) (dictLookup_mem hg)

theorem foldl_step_membersNodup :
    ∀ (ops : List Op) (s : DB), membersNodup s → (∀ op ∈ ops, opPayloadNodup op) →
      membersNodup (ops.foldl step s)
  | [], _, hs, _ => hs
  | op :: ops, s, hs, hops => by
      rw [List.foldl_cons]
      exact foldl_step_membersNodup ops _
        (step_membersNodup s op hs (hops op (by simp)))
        (fun op' h' => hops op' (by simp [h']))

/-! ### Concrete fixtures -/

def aliceUser : User := ⟨"u1", "alice", "alice@example.com", []⟩

def acmeOrg : Organization := ⟨"o1", "acme", "an org"⟩

def plainMessage : Message := ⟨"m1", "hi", "u1", "2024-01-01T00:00:00", [], [], none⟩

def likedMessage : Message := ⟨"m1", "hi", "u1", "2024-01-01T00:00:00", ["u1"], [], none⟩

def baseGroup : Group := ⟨"g1", "general", "chat", "o1", ["u1"], [plainMessage]⟩

def likedGroup : Group := ⟨"g1", "general", "chat", "o1", ["u1"], [likedMessage]⟩

def baseDB : DB := ⟨[("u1", aliceUser)], [("o1", acmeOrg)], [("g1", baseGroup)]⟩

def likedDB : DB := ⟨[("u1", aliceUser)], [("o1", acmeOrg)], [("g1", likedGroup)]⟩

/-- The collection `likedDB.groups` after `get_messages` has run once. -/
def likedGroupAnnotated : Group :=
  ⟨"g1", "general", "chat", "o1", ["u1"], [{ likedMessage with color := some "green" }]⟩

/-- Payload with a duplicated member id, accepted verbatim by `create_group`. -/
def dupGroup : Group := ⟨"g2", "dup", "chat", "o1", ["u1", "u1"], []⟩

/-- Payload whose member id exists in no user collection. -/
def ghostGroup : Group := ⟨"g3", "ghost", "chat", "o1", ["u9"], []⟩

/-! ### Claims -/

/-- Claim C1: the spec states that the `color` annotation computed by
`getMessages` is never written into the stored message entities and so
never reaches persisted state.  The handler in fact assigns the color
onto the stored message dicts themselves (the loop iterates over the
list object held in `groups_db`), so after one `get_messages` the stored
collection differs from the original, the stored message carries
`color = "green"`, and a later `save_data` writes that annotated
collection verbatim to the backing file. -/
theorem getMessages_writes_color_into_store :
    (get_messages "g1" likedDB).1 ≠ likedDB ∧
    dictLookup (get_messages "g1" likedDB).1.groups "g1" = some likedGroupAnnotated ∧
    likedGroupAnnotated.messages.map Message.color = [some "green"] ∧
    dictLookup
        (save_data "groups.json" (get_messages "g1" likedDB).1.groups [])
        "groups.json" =
      some (get_messages "g1" likedDB).1.groups := by
  have hcol : messageColor likedMessage = "green" := by
    rw [messageColor_eq]; decide
  have hann : annotate likedMessage = { likedMessage with color := some "green" } := by
    rw [annotate, hcol]
  have h : get_messages "g1" likedDB =
      ({ likedDB with groups := dictSet likedDB.groups "g1" likedGroupAnnotated },
        .ok [{ likedMessage with color := some "green" }]) := by
    simp [get_messages, likedDB, likedGroup, likedGroupAnnotated, dictLookup, hann]
  rw [h]
  refine ⟨by decide, by decide, by decide, by decide⟩

/-- Claim C2 is refuted on the code: `create_group` stores the client
payload verbatim, so a reachable store (one `createGroup` request from
the empty store) holds a group whose members list has a duplicate. -/
theorem createGroup_duplicate_members_cex :
    ¬ ∀ ops : List Op, membersNodup (run ops) := by
  intro h
  exact absurd (h [Op.createGroup dupGroup] ("g2", dupGroup) (by decide)) (by decide)

/-- Claim C2 (amended): in every state reachable from the empty store by
operations whose `createGroup` payloads carry duplicate-free members
lists, every stored group's members list is duplicate-free. -/
theorem run_members_nodup (ops : List Op) (h : ∀ op ∈ ops, opPayloadNodup op) :
    membersNodup (run ops) :=
  foldl_step_membersNodup ops DB.empty (by intro kv hkv; simp [DB.empty] at hkv) h

theorem run_members_nodup_witness :
    membersNodup (run [Op.createUser aliceUser, Op.createGroup baseGroup,
      Op.addMember "g1" "u1"]) :=
  run_members_nodup _ (by decide)

/-- Claim C3 is refuted on the code: `create_group` performs no
validation of the supplied member ids, so it succeeds on the empty store
while recording a member id that exists in no user collection. -/
theorem createGroup_member_validation_cex :
    ¬ ∀ (s : DB) (g : Group), (create_group g s).2.isOk = true →
        ∀ uid ∈ g.members, dictHas s.users uid = true := by
  intro h
  exact absurd (h DB.empty ghostGroup (by decide) "u9" (by decide)) (by decide)

/-- Claim C3 (amended): the operations that do validate — `addMember`
and `createMessage` — record a user id as member or author only when
that id exists in the user collection at the time of the call;
`createGroup` performs no such check on its payload. -/
theorem member_author_user_exists (s : DB) (gid uid content new_id ts : String) :
    ((add_member_to_group gid uid s).2.isOk = true → dictHas s.users uid = true) ∧
    ((create_message gid content uid new_id ts s).2.isOk = true →
      dictHas s.users uid = true) := by
  constructor
  · intro h
    by_cases hu : dictHas s.users uid = true
    · exact hu
    · exfalso
      have hu' : dictHas s.users uid = false := by
        cases hb : dictHas s.users uid
        · rfl
        · exact absurd hb hu
      cases hg : dictLookup s.groups gid with
      | none => simp [add_member_to_group, hg, Except.isOk, Except.toBool] at h
      | some g => simp [add_member_to_group, hg, hu', Except.isOk, Except.toBool] at h
  · intro h
    by_cases hu : dictHas s.users uid = true
    · exact hu
    · exfalso
      have hu' : dictHas s.users uid = false := by
        cases hb : dictHas s.users uid
        · rfl
        · exact absurd hb hu
      cases hg : dictLookup s.groups gid with
      | none => simp [create_message, hg, Except.isOk, Except.toBool] at h
      | some g => simp [create_message, hg, hu', Except.isOk, Except.toBool] at h

theorem member_author_user_exists_witness :
    dictHas baseDB.users "u1" = true ∧ dictHas baseDB.users "u1" = true :=
  ⟨(member_author_user_exists baseDB "g1" "u1" "hello" "m9" "t9").1 (by decide),
    (member_author_user_exists baseDB "g1" "u1" "hello" "m9" "t9").2 (by decide)⟩

/-- Claim C4: for a message in which the reacting user occurs at most
once in each reaction list (the spec's data-model invariant for
`Message`, and the state of every message built by `createMessage`),
after each call of any sequence of `reactToMessage` calls by that user
on that message the user's id occurs in at most one of likes and
dislikes, and at most once there (the displayed sum bounds both); every
call in the sequence succeeds. -/
theorem reactToMessage_sequence_exclusive (s : DB) (gid mid uid : String)
    (g : Group) (m : Message)
    (hg : dictLookup s.groups gid = some g)
    (hm : findMessage g.messages mid = some m)
    (h1 : m.likes.count uid ≤ 1) (h2 : m.dislikes.count uid ≤ 1)
    (rs : List String) (r : String) :
    ∃ g' m',
      dictLookup (runReacts gid mid uid (rs ++ [r]) s).groups gid = some g' ∧
      findMessage g'.messages mid = some m' ∧
      (react_to_message gid mid uid r (runReacts gid mid uid rs s)).2 = .ok m' ∧
      m'.likes.count uid + m'.dislikes.count uid ≤ 1 := by
  obtain ⟨g0, m0, hg0, hm0, h01, h02⟩ :=
    runReacts_inv gid mid uid rs s ⟨g, m, hg, hm, h1, h2⟩
  have hstep := react_to_message_found uid r hg0 hm0
  have hsplit : runReacts gid mid uid (rs ++ [r]) s =
      (react_to_message gid mid uid r (runReacts gid mid uid rs s)).1 := by
    simp [runReacts, List.foldl_append]
  refine ⟨{ g0 with messages := updateMessage mid (applyReaction uid r) g0.messages },
    applyReaction uid r m0, ?_, ?_, ?_, ?_⟩
  · rw [hsplit, hstep]
    exact dictLookup_dictSet_self _ gid _
  · exact findMessage_updateMessage mid _ (applyReaction_id uid r) g0.messages m0 hm0
  · rw [hstep]
  · rw [applyReaction_count_self_likes uid r m0 h01,
      applyReaction_count_self_dislikes uid r m0 h02]
    by_cases hr : r = "like"
    · have hr2 : ¬ r = "dislike" := by rw [hr]; decide
      simp [hr, hr2]
    · by_cases hr2 : r = "dislike" <;> simp [hr, hr2]

theorem reactToMessage_sequence_exclusive_witness :
    ∃ g' m',
      dictLookup (runReacts "g1" "m1" "u1" (["like"] ++ ["dislike"]) baseDB).groups "g1"
        = some g' ∧
      findMessage g'.messages "m1" = some m' ∧
      (react_to_message "g1" "m1" "u1" "dislike"
        (runReacts "g1" "m1" "u1" ["like"] baseDB)).2 = .ok m' ∧
      m'.likes.count "u1" + m'.dislikes.count "u1" ≤ 1 :=
  reactToMessage_sequence_exclusive baseDB "g1" "m1" "u1" baseGroup plainMessage
    (by decide) (by decide) (by decide) (by decide) ["like"] "dislike"

/-- Claim C5: on a group that holds a matching message (in which the
reacting user occurs at most once per reaction list, the spec's
data-model invariant), `reactToMessage` succeeds for every reaction
string, ends with the user counted in likes exactly when the reaction is
"like", in dislikes exactly when it is "dislike", hence cleared from
both on any other string, and leaves every other user's reaction counts
and the message's id and content unchanged. -/
theorem reactToMessage_records_reaction (s : DB) (gid mid uid reaction : String)
    (g : Group) (m : Message)
    (hg : dictLookup s.groups gid = some g)
    (hm : findMessage g.messages mid = some m)
    (h1 : m.likes.count uid ≤ 1) (h2 : m.dislikes.count uid ≤ 1) :
    ∃ m', (react_to_message gid mid uid reaction s).2 = .ok m' ∧
      m'.likes.count uid = (if reaction = "like" then 1 else 0) ∧
      m'.dislikes.count uid = (if reaction = "dislike" then 1 else 0) ∧
      (∀ v, v ≠ uid →
        m'.likes.count v = m.likes.count v ∧ m'.dislikes.count v = m.dislikes.count v) ∧
      m'.id = m.id ∧ m'.content = m.content := by
  rw [react_to_message_found uid reaction hg hm]
  exact ⟨applyReaction uid reaction m, rfl,
    applyReaction_count_self_likes uid reaction m h1,
    applyReaction_count_self_dislikes uid reaction m h2,
    fun v hv => applyReaction_count_other uid reaction v hv m,
    applyReaction_id uid reaction m, applyReaction_content uid reaction m⟩

theorem reactToMessage_records_reaction_witness :
    ∃ m', (react_to_message "g1" "m1" "u1" "dislike" likedDB).2 = .ok m' ∧
      m'.likes.count "u1" = (if "dislike" = "like" then 1 else 0) ∧
      m'.dislikes.count "u1" = (if "dislike" = "dislike" then 1 else 0) ∧
      (∀ v, v ≠ "u1" →
        m'.likes.count v = likedMessage.likes.count v ∧
        m'.dislikes.count v = likedMessage.dislikes.count v) ∧
      m'.id = likedMessage.id ∧ m'.content = likedMessage.content :=
  reactToMessage_records_reaction likedDB "g1" "m1" "u1" "dislike" likedGroup
    likedMessage (by decide) (by decide) (by decide) (by decide)

/-- Claim C6: when the group exists but no stored message of it carries
the requested id, `reactToMessage` fails with 404 "Message not found"
and the whole store — in particular the group's message sequence with
every content, likes and dislikes list — is exactly what it was. -/
theorem reactToMessage_missing_message (s : DB) (gid mid uid reaction : String)
    (g : Group)
    (hg : dictLookup s.groups gid = some g)
    (hm : ∀ m ∈ g.messages, m.id ≠ mid) :
    react_to_message gid mid uid reaction s = (s, .error ⟨404, "Message not found"⟩) := by
  have hnone : findMessage g.messages mid = none := by
    unfold findMessage
    rw [List.find?_eq_none]
    intro m hmem
    simpa using hm m hmem
  simp [react_to_message, hg, hnone]

theorem reactToMessage_missing_message_witness :
    react_to_message "g1" "nope" "u1" "like" baseDB =
      (baseDB, .error ⟨404, "Message not found"⟩) :=
  reactToMessage_missing_message baseDB "g1" "nope" "u1" "like" baseGroup
    (by decide) (by decide)

/-- Claim C7: on an existing group whose members list holds the user at
most once (the spec's set-like data model for `members`) and an existing
user, two successive `addMember` calls both succeed, the members list
after the second call equals the list after the first, and that list
counts the user exactly once. -/
theorem addMember_idempotent (s : DB) (gid uid : String) (g : Group)
    (hg : dictLookup s.groups gid = some g)
    (hu : dictHas s.users uid = true)
    (hc : g.members.count uid ≤ 1) :
    ∃ g1 g2,
      (add_member_to_group gid uid s).2 = .ok "Member added successfully" ∧
      dictLookup (add_member_to_group gid uid s).1.groups gid = some g1 ∧
      (add_member_to_group gid uid (add_member_to_group gid uid s).1).2 =
        .ok "Member added successfully" ∧
      dictLookup
          (add_member_to_group gid uid (add_member_to_group gid uid s).1).1.groups gid
        = some g2 ∧
      g2.members = g1.members ∧ g1.members.count uid = 1 := by
  by_cases hmem : uid ∈ g.members
  · have h1 : add_member_to_group gid uid s = (s, .ok "Member added successfully") := by
      simp [add_member_to_group, hg, hu, hmem]
    refine ⟨g, g, ?_, ?_, ?_, ?_, rfl, ?_⟩
    · rw [h1]
    · rw [h1]; exact hg
    · simp [h1]
    · simp [h1]; exact hg
    · have := List.count_pos_iff.mpr hmem
      omega
  · have hcnt0 : g.members.count uid = 0 := List.count_eq_zero.mpr hmem
    have h1 : add_member_to_group gid uid s =
        ({ s with groups := dictSet s.groups gid ({ g with members := g.members ++ [uid] }) },
          .ok "Member added successfully") := by
      simp [add_member_to_group, hg, hu, hmem]
    have hlook : dictLookup (dictSet s.groups gid ({ g with members := g.members ++ [uid] }))
        gid = some { g with members := g.members ++ [uid] } :=
      dictLookup_dictSet_self s.groups gid _
    have hmem2 : uid ∈ g.members ++ [uid] := by simp
    have h2 : add_member_to_group gid uid
          ({ s with groups := dictSet s.groups gid ({ g with members := g.members ++ [uid] }) } : DB)
        = ({ s with groups := dictSet s.groups gid ({ g with members := g.members ++ [uid] }) },
          .ok "Member added successfully") := by
      simp [add_member_to_group, hlook, hu, hmem2]
    refine ⟨{ g with members := g.members ++ [uid] },
      { g with members := g.members ++ [uid] }, ?_, ?_, ?_, ?_, rfl, ?_⟩
    · rw [h1]
    · rw [h1]; exact hlook
    · rw [h1]; simpa using congrArg Prod.snd h2
    · rw [h1]
      have h3 := congrArg (fun t => dictLookup t.1.groups gid) h2
      simpa [hlook] using h3
    · simp [List.count_append, hcnt0]

theorem addMember_idempotent_witness :
    ∃ g1 g2,
      (add_member_to_group "g1" "u1" baseDB).2 = .ok "Member added successfully" ∧
      dictLookup (add_member_to_group "g1" "u1" baseDB).1.groups "g1" = some g1 ∧
      (add_member_to_group "g1" "u1" (add_member_to_group "g1" "u1" baseDB).1).2 =
        .ok "Member added successfully" ∧
      dictLookup
          (add_member_to_group "g1" "u1" (add_member_to_group "g1" "u1" baseDB).1).1.groups
          "g1"
        = some g2 ∧
      g2.members = g1.members ∧ g1.members.count "u1" = 1 :=
  addMember_idempotent baseDB "g1" "u1" baseGroup (by decide) (by decide) (by decide)

/-- Store holding only a user collection entry. -/
def onlyUserDB : DB := ⟨[("u1", aliceUser)], [], []⟩

/-- Store holding only an organization collection entry. -/
def onlyOrgDB : DB := ⟨[], [("o1", acmeOrg)], []⟩

/-- Store holding only a group collection entry. -/
def onlyGroupDB : DB := ⟨[], [], [("g1", baseGroup)]⟩

/-- Claim C8: each of the three create operations, taken separately over
any store, fails with 400 (Conflict) when its entity's id is already
present in its own collection, and leaves the whole store — in
particular the entity stored under that id — exactly as it was. -/
theorem create_duplicate_conflict (s : DB) (u : User) (o : Organization) (g : Group) :
    (dictHas s.users u.id = true →
      create_user u s = (s, .error ⟨400, "User already exists"⟩)) ∧
    (dictHas s.orgs o.id = true →
      create_organization o s = (s, .error ⟨400, "Organization already exists"⟩)) ∧
    (dictHas s.groups g.id = true →
      create_group g s = (s, .error ⟨400, "Group already exists"⟩)) := by
  refine ⟨fun hu => ?_, fun ho => ?_, fun hg => ?_⟩
  · simp [create_user, hu]
  · simp [create_organization, ho]
  · simp [create_group, hg]

theorem create_duplicate_conflict_witness :
    create_user aliceUser onlyUserDB =
      (onlyUserDB, .error ⟨400, "User already exists"⟩) ∧
    create_organization acmeOrg onlyOrgDB =
      (onlyOrgDB, .error ⟨400, "Organization already exists"⟩) ∧
    create_group baseGroup onlyGroupDB =
      (onlyGroupDB, .error ⟨400, "Group already exists"⟩) :=
  ⟨(create_duplicate_conflict onlyUserDB aliceUser acmeOrg baseGroup).1 (by decide),
    (create_duplicate_conflict onlyOrgDB aliceUser acmeOrg baseGroup).2.1 (by decide),
    (create_duplicate_conflict onlyGroupDB aliceUser acmeOrg baseGroup).2.2 (by decide)⟩

/-- Claim C9: on an existing group `getMessages` succeeds, and every
returned message is annotated "gray" exactly when it has no reactions,
"green" exactly when it has reactions and all are likes, "red" exactly
when it has reactions and all are dislikes, and "yellow" exactly when
both lists are non-empty. -/
theorem getMessages_colors (s : DB) (gid : String) (g : Group)
    (hg : dictLookup s.groups gid = some g) :
    ∃ msgs, (get_messages gid s).2 = .ok msgs ∧
      ∀ m ∈ msgs,
        (m.color = some "gray" ↔ (m.likes = [] ∧ m.dislikes = [])) ∧
        (m.color = some "green" ↔ (m.likes ≠ [] ∧ m.dislikes = [])) ∧
        (m.color = some "red" ↔ (m.likes = [] ∧ m.dislikes ≠ [])) ∧
        (m.color = some "yellow" ↔ (m.likes ≠ [] ∧ m.dislikes ≠ [])) := by
  refine ⟨g.messages.map annotate, by simp [get_messages, hg], ?_⟩
  intro m hmem
  rw [List.mem_map] at hmem
  obtain ⟨m0, _, rfl⟩ := hmem
  have hcol := messageColor_eq m0
  by_cases hl : m0.likes = [] <;> by_cases hd : m0.dislikes = [] <;>
    simp [annotate, hcol, hl, hd, List.length_eq_zero]

theorem getMessages_colors_witness :
    ∃ msgs, (get_messages "g1" likedDB).2 = .ok msgs ∧
      ∀ m ∈ msgs,
        (m.color = some "gray" ↔ (m.likes = [] ∧ m.dislikes = [])) ∧
        (m.color = some "green" ↔ (m.likes ≠ [] ∧ m.dislikes = [])) ∧
        (m.color = some "red" ↔ (m.likes = [] ∧ m.dislikes ≠ [])) ∧
        (m.color = some "yellow" ↔ (m.likes ≠ [] ∧ m.dislikes ≠ [])) :=
  getMessages_colors likedDB "g1" likedGroup (by decide)

/-- Claim C10: saving any collection value to its backing file and
loading it back (the file now present and readable) returns exactly the
saved value, leaving the file store as the save left it. -/
theorem save_load_roundtrip {α : Type} (fs : List (String × α)) (filename : String)
    (data default_data : α) :
    load_data filename default_data (save_data filename data fs) =
      (data, save_data filename data fs) := by
  simp [load_data, save_data, dictLookup_dictSet_self]

end GroupChat
